import Mathlib

/-!
Shallow embedding of `source/game.cpp` (dod-playground): structure-of-arrays
component storage addressed by integer handles, and the per-frame pipeline
Move → Resolve-Avoidance → Export with double-buffered mutable stores.

Modelling conventions:
* C++ `float` values are modelled as `ℚ` (exact arithmetic over the same
  field operations the source performs).
* `Id<T>` (a typed integer index) is modelled as `Nat`.
* `std::vector<T>` is modelled as `List T`; `v[i]` reads become `getD` with a
  junk default (every access the theorems talk about is in range, as in the
  running program), and `v[i] = x` writes become `List.set`.
* `rand()`-derived constructor arguments are passed in as explicit parameters
  (the pseudo-random draws are inputs of the initialisation, not of the
  per-frame pipeline).
-/

/-- World bounds for the game logic: x,y minimum and maximum values
(`WorldBounds` in game.cpp). -/
structure WorldBounds where
  xMin : ℚ
  xMax : ℚ
  yMin : ℚ
  yMax : ℚ
deriving DecidableEq

/-- Two-dimensional position plus velocity (`Position` in game.cpp). -/
structure Position where
  x : ℚ
  y : ℚ
  velx : ℚ
  vely : ℚ
deriving DecidableEq

/-- RGB color (`Color` in game.cpp). -/
structure Color where
  colorR : ℚ
  colorG : ℚ
  colorB : ℚ
deriving DecidableEq

/-- Sprite component: atlas index, render scale, and handles to its Color and
Position (`Sprite` in game.cpp; the C++ constructor takes the fields in the
order spriteIndex, scale, color, pos). -/
structure Sprite where
  scale : ℚ
  spriteIndex : Nat
  colorId : Nat
  posId : Nat
deriving DecidableEq

/-- Marker component: objects with `Avoid` avoid objects carrying this
(`AvoidThis` in game.cpp). `distanceSq` is precomputed by the constructor. -/
structure AvoidThis where
  distanceSq : ℚ
  colorId : Nat
  posId : Nat
deriving DecidableEq

/-- The C++ `AvoidThis(distance, color, position)` constructor: stores the
square of the trigger distance. -/
def AvoidThis.ofDistance (distance : ℚ) (color : Nat) (position : Nat) : AvoidThis :=
  ⟨distance * distance, color, position⟩

/-- Behaviour component (`Avoid` in game.cpp): handles to the Position and
Color this entity owns. -/
structure Avoid where
  posId : Nat
  colorId : Nat
deriving DecidableEq

/-- Read `v[i]` on a Position array (in-range in the running program). -/
def getP (l : List Position) (i : Nat) : Position := l.getD i ⟨0, 0, 0, 0⟩

/-- Read `v[i]` on a Color array (in-range in the running program). -/
def getC (l : List Color) (i : Nat) : Color := l.getD i ⟨0, 0, 0⟩

/-- Read `v[i]` on a Sprite array (in-range in the running program). -/
def getS (l : List Sprite) (i : Nat) : Sprite := l.getD i ⟨0, 0, 0, 0⟩

/-- Model of `std::min(a, b)`: returns `b` when `b < a`, else `a`. -/
def stdMin (a b : ℚ) : ℚ := if b < a then b else a

/-- Model of `std::max(a, b)`: returns `b` when `a < b`, else `a`. -/
def stdMax (a b : ℚ) : ℚ := if a < b then b else a

/-- Function `Clamp` from game.cpp: `std::max(lower, std::min(upper, x))`. -/
def Clamp (x lower upper : ℚ) : ℚ := stdMax lower (stdMin upper x)

/-- The inline conditional `_x < min ? -1.f : (_x > max ? -1.f : 1.f)` of
`Position::UpdatePosition`. -/
def velScale (x' lo hi : ℚ) : ℚ := if x' < lo then -1 else if x' > hi then -1 else 1

/-- Member `Position::UpdatePosition`: integrate velocity over `deltaTime`, then per
axis mirror the velocity if the integrated coordinate left the bounds and
clamp the coordinate back onto the bounds. -/
def Position.UpdatePosition (p : Position) (deltaTime : ℚ) (bounds : WorldBounds) : Position :=
  let _x := p.x + p.velx * deltaTime
  let _y := p.y + p.vely * deltaTime
  ⟨Clamp _x bounds.xMin bounds.xMax, Clamp _y bounds.yMin bounds.yMax,
    p.velx * velScale _x bounds.xMin bounds.xMax,
    p.vely * velScale _y bounds.yMin bounds.yMax⟩

/-- Static `Position::UpdatePositions`: the loop
`for i in 0..inputs.size: outputs[i] = inputs[i].UpdatePosition(...)`. -/
def Position.UpdatePositions (deltaTime : ℚ) (bounds : WorldBounds)
    (inputs outputs : List Position) : List Position :=
  (List.range inputs.length).foldl
    (fun out i => out.set i ((getP inputs i).UpdatePosition deltaTime bounds)) outputs

/-- Squared Euclidean distance, `Avoid::DistanceSq`. -/
def Avoid.DistanceSq (a b : Position) : ℚ :=
  let dx := a.x - b.x
  let dy := a.y - b.y
  dx * dx + dy * dy

/-- Static `Avoid::ResolveCollision`: flip the velocity and move out of the
collision by a little more (factor 1.1) than a normal frame step. -/
def Avoid.ResolveCollision (deltaTime : ℚ) (pos : Position) : Position :=
  let velx := -pos.velx
  let vely := -pos.vely
  ⟨pos.x + velx * deltaTime * (11/10), pos.y + vely * deltaTime * (11/10), velx, vely⟩

/-- Result record of the member `Avoid::ResolveCollisions` (`Avoid::NewState`). -/
structure NewState where
  pos : Position
  color : Color
deriving DecidableEq

/-- The `for (auto& o : avoidThese)` loop body of the member
`Avoid::ResolveCollisions`: return on the first in-range target. -/
def Avoid.ResolveCollisionsLoop (deltaTime : ℚ) (myPos : Position) (myColor : Color)
    (positions : List Position) (colors : List Color) : List AvoidThis → NewState
  | [] => ⟨myPos, myColor⟩
  | o :: rest =>
    let oColor := getC colors o.colorId
    let oPos := getP positions o.posId
    if Avoid.DistanceSq myPos oPos < o.distanceSq then
      ⟨Avoid.ResolveCollision deltaTime myPos, oColor⟩
    else
      Avoid.ResolveCollisionsLoop deltaTime myPos myColor positions colors rest

/-- The member `Avoid::ResolveCollisions`: scan `avoidThese` in order; on the
first target closer than its trigger distance, bounce and take its color;
otherwise pass `myPos`/`myColor` through unchanged. -/
def Avoid.ResolveCollisions (c : Avoid) (deltaTime : ℚ) (positions : List Position)
    (colors : List Color) (avoidThese : List AvoidThis) : NewState :=
  Avoid.ResolveCollisionsLoop deltaTime (getP positions c.posId) (getC colors c.colorId)
    positions colors avoidThese

/-- The static `Avoid::ResolveCollisions`: for each Avoid component write its
resolved position and color into the output arrays at its own handles. -/
def Avoid.ResolveCollisionsStatic (deltaTime : ℚ) (out_pos : List Position)
    (out_color : List Color) (in_pos : List Position) (in_color : List Color)
    (avoid : List Avoid) (avoidThese : List AvoidThis) : List Position × List Color :=
  avoid.foldl
    (fun acc c =>
      let result := c.ResolveCollisions deltaTime in_pos in_color avoidThese
      (acc.1.set c.posId result.pos, acc.2.set c.colorId result.color))
    (out_pos, out_color)

/-- One output record of `ExportSpriteData` (`sprite_data_t`). -/
structure SpriteData where
  posX : ℚ
  posY : ℚ
  scale : ℚ
  colR : ℚ
  colG : ℚ
  colB : ℚ
  sprite : ℚ
deriving DecidableEq

/-- Function `ExportSpriteData`: one record per Sprite, in order; positions and sprite
scale multiplied by the global scale 0.05, colors copied, sprite index cast. -/
def ExportSpriteData (sprites : List Sprite) (positions : List Position)
    (colors : List Color) : List SpriteData :=
  sprites.map fun sprite =>
    let pos := getP positions sprite.posId
    let color := getC colors sprite.colorId
    let globalScale : ℚ := 1/20
    ⟨pos.x * globalScale, pos.y * globalScale, sprite.scale * globalScale,
      color.colorR, color.colorG, color.colorB, (sprite.spriteIndex : ℚ)⟩

/-- The mutable component store (`MutableComponents`): Position and Color
arenas, rewritten every frame. -/
structure MutableComponents where
  pos : List Position
  color : List Color
deriving DecidableEq

/-- The static component store (`StaticComponents`): Sprite, Avoid, AvoidThis
arenas, immutable after initialisation. -/
structure StaticComponents where
  sprite : List Sprite
  avoid : List Avoid
  avoidThis : List AvoidThis
deriving DecidableEq

namespace Allocators

/-- Member `Allocators::New`: read the arena's current size as the new handle's
index, append the component, return the handle (second component). -/
def New {T : Type} (storage : List T) (v : T) : List T × Nat :=
  (storage ++ [v], storage.length)

end Allocators

/-- The pseudo-random draws `NewRegularObject` consumes: the Position built
from `Position(bounds, 1.0, RandomAngle(), RandomFloat(0.5,0.7))` and the
sprite index `rand() % 5`. -/
structure RegularParams where
  pos : Position
  spriteIndex : Nat
deriving DecidableEq

/-- Function `NewRegularObject`: allocate a random Position, a white Color, a Sprite
(random index from the first 5, scale 1) and an Avoid component. -/
def NewRegularObject (m : MutableComponents) (s : StaticComponents)
    (params : RegularParams) : MutableComponents × StaticComponents :=
  let posN := Allocators.New m.pos params.pos
  let colorN := Allocators.New m.color ⟨1, 1, 1⟩
  let spriteN := Allocators.New s.sprite ⟨1, params.spriteIndex, colorN.2, posN.2⟩
  let avoidN := Allocators.New s.avoid ⟨posN.2, colorN.2⟩
  (⟨posN.1, colorN.1⟩, ⟨spriteN.1, avoidN.1, s.avoidThis⟩)

/-- The pseudo-random draws `NewAvoidThis` consumes: the Position built from
`Position(bounds, 0.2, RandomAngle(), RandomFloat(0.1,0.2))` and the random
pastel Color. -/
structure AvoidThisParams where
  pos : Position
  color : Color
deriving DecidableEq

/-- Function `NewAvoidThis`: allocate a random Position near the world center, a random
color, a Sprite (index 5, scale 2) and an AvoidThis component with trigger
distance 1.3. -/
def NewAvoidThis (m : MutableComponents) (s : StaticComponents)
    (params : AvoidThisParams) : MutableComponents × StaticComponents :=
  let posN := Allocators.New m.pos params.pos
  let colorN := Allocators.New m.color params.color
  let spriteN := Allocators.New s.sprite ⟨2, 5, colorN.2, posN.2⟩
  let avoidThisN := Allocators.New s.avoidThis
    (AvoidThis.ofDistance (13/10) colorN.2 posN.2)
  (⟨posN.1, colorN.1⟩, ⟨spriteN.1, s.avoid, avoidThisN.1⟩)

/-- Constant `kObjectCount` in game.cpp. -/
def kObjectCount : Nat := 1000000

/-- Constant `kAvoidCount` in game.cpp. -/
def kAvoidCount : Nat := 20

/-- The game state (`Game` plus the double-buffer copy): world bounds, the
current mutable generation, the buffer generation, and the static store. -/
structure Game where
  bounds : WorldBounds
  mComponents : MutableComponents
  mComponentsBuffer : MutableComponents
  sComponents : StaticComponents
deriving DecidableEq

/-- The `Game` constructor: create the regular objects, then the avoid-target
objects, then copy the mutable store into the buffer
(`mComponentsBuffer = mComponents`). The constructor's pseudo-random draws
arrive as the two parameter lists; game.cpp runs this with
`regs.length = kObjectCount` and `avs.length = kAvoidCount`. -/
def Game.init (bounds : WorldBounds) (regs : List RegularParams)
    (avs : List AvoidThisParams) : Game :=
  let ms1 := regs.foldl
    (fun (ms : MutableComponents × StaticComponents) p => NewRegularObject ms.1 ms.2 p)
    (⟨[], []⟩, ⟨[], [], []⟩)
  let ms2 := avs.foldl
    (fun (ms : MutableComponents × StaticComponents) p => NewAvoidThis ms.1 ms.2 p)
    ms1
  ⟨bounds, ms2.1, ms2.1, ms2.2⟩

/-- Function `game_update`: Move writes the moved positions into the buffer generation;
Resolve reads the moved positions and the current colors and writes into the
arrays holding the old current positions and the old buffer colors; the
buffers are then rotated (the moved positions and the old current colors
become the buffer; the resolved arrays become current) and Export reads the
new current generation. Returns the new game state and the render records. -/
def game_update (g : Game) (deltaTime : ℚ) : Game × List SpriteData :=
  let movedPositions :=
    Position.UpdatePositions deltaTime g.bounds g.mComponents.pos g.mComponentsBuffer.pos
  let resolved :=
    Avoid.ResolveCollisionsStatic deltaTime g.mComponents.pos g.mComponentsBuffer.color
      movedPositions g.mComponents.color g.sComponents.avoid g.sComponents.avoidThis
  let g' : Game :=
    ⟨g.bounds, ⟨resolved.1, resolved.2⟩, ⟨movedPositions, g.mComponents.color⟩, g.sComponents⟩
  (g', ExportSpriteData g.sComponents.sprite resolved.1 resolved.2)

/-- Iterated `game_update` over a sequence of frame delta times, collecting
the render-record sequence of every frame. -/
def game_updateRun (g : Game) (dts : List ℚ) : Game × List (List SpriteData) :=
  dts.foldl
    (fun (acc : Game × List (List SpriteData)) dt =>
      let step := game_update acc.1 dt
      (step.1, acc.2 ++ [step.2]))
    (g, [])

/-- A small game built by the `Game` constructor shape: one regular object at
(0,0) with velocity (1,0), one avoid-target object at (30,0) with velocity
(1,0), in the world bounds of `game_initialize`. The two entities stay far
apart, so no collision triggers. -/
def gStale : Game :=
  Game.init ⟨-80, 80, -50, 50⟩ [⟨⟨0, 0, 1, 0⟩, 0⟩] [⟨⟨30, 0, 1, 0⟩, ⟨1/2, 1/2, 1/2⟩⟩]

/-- A small game built by the `Game` constructor shape in which the regular
object's Move output lands exactly on the avoid target: regular object at
(179,0) with velocity (-100,0) (moved to (79,0)), avoid target resting at
(79,0). -/
def gEscape : Game :=
  Game.init ⟨-80, 80, -50, 50⟩ [⟨⟨179, 0, -100, 0⟩, 0⟩] [⟨⟨79, 0, 0, 0⟩, ⟨1/2, 1/2, 1/2⟩⟩]

/-- The Move-pass output of the first frame of `gEscape` (dt = 1). -/
def gEscapeMoved : List Position :=
  Position.UpdatePositions 1 gEscape.bounds gEscape.mComponents.pos gEscape.mComponentsBuffer.pos

/-- A game state whose static store holds exactly
`kObjectCount + kAvoidCount` sprites (the population `Game::Game` creates). -/
def gMillion : Game :=
  ⟨⟨-80, 80, -50, 50⟩, ⟨[], []⟩, ⟨[], []⟩, ⟨List.replicate 1000020 ⟨1, 0, 0, 0⟩, [], []⟩⟩

/-! ## General helper lemmas -/

/-- Writing `f i` sequentially at every index `i < n` of a list with at least
`n` elements replaces the first `n` elements by the image of `f` and leaves
the tail untouched. -/
theorem foldl_set_range {α : Type} (f : Nat → α) :
    ∀ (n : Nat) (init : List α), n ≤ init.length →
      (List.range n).foldl (fun out i => out.set i (f i)) init =
        ((List.range n).map f) ++ init.drop n := by
  intro n
  induction n with
  | zero => intro init _; simp
  | succ n ih =>
    intro init h
    have hn : n < init.length := Nat.lt_of_succ_le h
    rw [List.range_succ, List.foldl_append, ih init (Nat.le_of_lt hn)]
    have hdrop : init.drop n = init.get ⟨n, hn⟩ :: init.drop (n + 1) :=
      List.drop_eq_getElem_cons hn
    rw [List.foldl_cons, List.foldl_nil, List.set_append, hdrop]
    simp only [List.length_map, List.length_range, lt_self_iff_false, if_false, Nat.sub_self,
      List.set_cons_zero, List.map_append, List.map_singleton, List.append_assoc,
      List.singleton_append]

/-- Running `Position::UpdatePositions` with a correctly sized output buffer computes
`UpdatePosition` of every input, in input order. -/
theorem UpdatePositions_eq_map (deltaTime : ℚ) (bounds : WorldBounds)
    (inputs outputs : List Position) (hlen : outputs.length = inputs.length) :
    Position.UpdatePositions deltaTime bounds inputs outputs =
      (List.range inputs.length).map
        (fun i => (getP inputs i).UpdatePosition deltaTime bounds) := by
  unfold Position.UpdatePositions
  rw [foldl_set_range (fun i => (getP inputs i).UpdatePosition deltaTime bounds)
    inputs.length outputs (le_of_eq hlen.symm)]
  rw [← hlen, List.drop_length, List.append_nil]

/-- Length of the Move pass output. -/
theorem UpdatePositions_length (deltaTime : ℚ) (bounds : WorldBounds)
    (inputs outputs : List Position) (hlen : outputs.length = inputs.length) :
    (Position.UpdatePositions deltaTime bounds inputs outputs).length = inputs.length := by
  rw [UpdatePositions_eq_map deltaTime bounds inputs outputs hlen]
  simp

/-- Element access into the Move pass output. -/
theorem getP_UpdatePositions (deltaTime : ℚ) (bounds : WorldBounds)
    (inputs outputs : List Position) (hlen : outputs.length = inputs.length)
    (i : Nat) (hi : i < inputs.length) :
    getP (Position.UpdatePositions deltaTime bounds inputs outputs) i =
      (getP inputs i).UpdatePosition deltaTime bounds := by
  rw [UpdatePositions_eq_map deltaTime bounds inputs outputs hlen]
  unfold getP
  rw [List.getD_eq_getElem _ _ (by simpa using hi), List.getElem_map, List.getElem_range]

/-- Behaviour of one clamped-and-reflected axis of `UpdatePosition`, for
ordered bounds: crossing the upper bound clamps to it and flips the velocity,
crossing the lower bound clamps to it and flips the velocity, staying inside
keeps coordinate and velocity. -/
theorem reflect_axis (x' lo hi v : ℚ) (h : lo ≤ hi) :
    (x' > hi → Clamp x' lo hi = hi ∧ v * velScale x' lo hi = -v) ∧
    (x' < lo → Clamp x' lo hi = lo ∧ v * velScale x' lo hi = -v) ∧
    (lo ≤ x' → x' ≤ hi → Clamp x' lo hi = x' ∧ v * velScale x' lo hi = v) := by
  unfold Clamp stdMin stdMax velScale
  refine ⟨fun h1 => ⟨?_, ?_⟩, fun h1 => ⟨?_, ?_⟩, fun h1 h2 => ⟨?_, ?_⟩⟩ <;>
    split_ifs <;> first | rfl | linarith

/-- The clamped coordinate always lands inside ordered bounds. -/
theorem Clamp_mem (x lo hi : ℚ) (h : lo ≤ hi) : lo ≤ Clamp x lo hi ∧ Clamp x lo hi ≤ hi := by
  unfold Clamp stdMin stdMax
  split_ifs <;> constructor <;> linarith

/-- The scan loop of the member `Avoid::ResolveCollisions` returns the pass-
through result when no target of the list is in range. -/
theorem ResolveCollisionsLoop_no_match (deltaTime : ℚ) (myPos : Position) (myColor : Color)
    (positions : List Position) (colors : List Color) (ts : List AvoidThis)
    (h : ∀ t ∈ ts, ¬ Avoid.DistanceSq myPos (getP positions t.posId) < t.distanceSq) :
    Avoid.ResolveCollisionsLoop deltaTime myPos myColor positions colors ts =
      ⟨myPos, myColor⟩ := by
  induction ts with
  | nil => rfl
  | cons o rest ih =>
    unfold Avoid.ResolveCollisionsLoop
    rw [if_neg (h o (List.mem_cons_self o rest))]
    exact ih fun t ht => h t (List.mem_cons_of_mem o ht)

/-- The scan loop of the member `Avoid::ResolveCollisions` stops at the first
in-range target: every earlier target being out of range, it bounces off that
target and takes its color, never consulting the rest of the list. -/
theorem ResolveCollisionsLoop_first_match (deltaTime : ℚ) (myPos : Position) (myColor : Color)
    (positions : List Position) (colors : List Color) (ts1 ts2 : List AvoidThis) (t : AvoidThis)
    (h1 : ∀ t' ∈ ts1, ¬ Avoid.DistanceSq myPos (getP positions t'.posId) < t'.distanceSq)
    (h2 : Avoid.DistanceSq myPos (getP positions t.posId) < t.distanceSq) :
    Avoid.ResolveCollisionsLoop deltaTime myPos myColor positions colors (ts1 ++ t :: ts2) =
      ⟨Avoid.ResolveCollision deltaTime myPos, getC colors t.colorId⟩ := by
  induction ts1 with
  | nil =>
    unfold Avoid.ResolveCollisionsLoop
    rw [List.nil_append]
    exact if_pos h2
  | cons o rest ih =>
    rw [List.cons_append]
    unfold Avoid.ResolveCollisionsLoop
    rw [if_neg (h1 o (List.mem_cons_self o rest))]
    exact ih fun t' ht => h1 t' (List.mem_cons_of_mem o ht)

/-- C2: for every Avoid entity, the Resolve pass scans the AvoidThis array in
creation order and acts on the first target whose squared distance to the
entity's moved position is strictly below that target's precomputed squared
trigger distance; on a match the resolved velocity is the negated moved
velocity, the resolved position advances by the negated velocity times
`deltaTime` times 1.1, and the resolved color is that target's color; later
targets (the arbitrary suffix `ts2`) are never consulted. -/
theorem ResolveCollisions_first_match_semantics (c : Avoid) (deltaTime : ℚ)
    (positions : List Position) (colors : List Color) (ts1 ts2 : List AvoidThis) (t : AvoidThis)
    (h1 : ∀ t' ∈ ts1,
      ¬ Avoid.DistanceSq (getP positions c.posId) (getP positions t'.posId) < t'.distanceSq)
    (h2 : Avoid.DistanceSq (getP positions c.posId) (getP positions t.posId) < t.distanceSq) :
    c.ResolveCollisions deltaTime positions colors (ts1 ++ t :: ts2) =
      ⟨⟨(getP positions c.posId).x + -(getP positions c.posId).velx * deltaTime * (11/10),
        (getP positions c.posId).y + -(getP positions c.posId).vely * deltaTime * (11/10),
        -(getP positions c.posId).velx, -(getP positions c.posId).vely⟩,
        getC colors t.colorId⟩ := by
  unfold Avoid.ResolveCollisions
  exact ResolveCollisionsLoop_first_match deltaTime _ _ positions colors ts1 ts2 t h1 h2

/-- Witness for C2 (the second scenario of spec §8): the entity moved to
(2/5, 0) is out of range of a first target with trigger distance² 1/100 and in
range of the second with 169/100; it bounces to x = -1/25 and copies the
second target's color. -/
theorem ResolveCollisions_first_match_semantics_witness :
    ¬ Avoid.DistanceSq (getP [⟨2/5, 0, 2/5, 0⟩, ⟨1/2, 0, 0, 0⟩] 0)
        (getP [⟨2/5, 0, 2/5, 0⟩, ⟨1/2, 0, 0, 0⟩] 1) < (1/100 : ℚ) ∧
    Avoid.DistanceSq (getP [⟨2/5, 0, 2/5, 0⟩, ⟨1/2, 0, 0, 0⟩] 0)
        (getP [⟨2/5, 0, 2/5, 0⟩, ⟨1/2, 0, 0, 0⟩] 1) < (169/100 : ℚ) ∧
    Avoid.ResolveCollisions ⟨0, 0⟩ 1 [⟨2/5, 0, 2/5, 0⟩, ⟨1/2, 0, 0, 0⟩]
        [⟨1, 1, 1⟩, ⟨1/2, 3/5, 7/10⟩]
        ([⟨1/100, 1, 1⟩] ++ ⟨169/100, 1, 1⟩ :: [⟨0, 0, 0⟩]) =
      ⟨⟨2/5 + -(2/5) * 1 * (11/10), 0 + -(0:ℚ) * 1 * (11/10), -(2/5), -(0:ℚ)⟩,
        getC [⟨1, 1, 1⟩, ⟨1/2, 3/5, 7/10⟩] 1⟩ := by
  refine ⟨by norm_num [Avoid.DistanceSq, getP], by norm_num [Avoid.DistanceSq, getP], ?_⟩
  have h := ResolveCollisions_first_match_semantics ⟨0, 0⟩ 1
    [⟨2/5, 0, 2/5, 0⟩, ⟨1/2, 0, 0, 0⟩] [⟨1, 1, 1⟩, ⟨1/2, 3/5, 7/10⟩]
    [⟨1/100, 1, 1⟩] [⟨0, 0, 0⟩] ⟨169/100, 1, 1⟩
    (by intro t' ht; simp at ht; subst ht; norm_num [Avoid.DistanceSq, getP])
    (by norm_num [Avoid.DistanceSq, getP])
  rw [h]
  norm_num [getP, getC]

/-- C5: an Avoid entity with no AvoidThis target in range passes through: the
resolved position (and hence velocity) is exactly its entry in the moved
positions array, and the resolved color is exactly its entry in the
previous-generation color array. -/
theorem ResolveCollisions_passthrough (c : Avoid) (deltaTime : ℚ)
    (positions : List Position) (colors : List Color) (avoidThese : List AvoidThis)
    (h : ∀ t ∈ avoidThese,
      ¬ Avoid.DistanceSq (getP positions c.posId) (getP positions t.posId) < t.distanceSq) :
    c.ResolveCollisions deltaTime positions colors avoidThese =
      ⟨getP positions c.posId, getC colors c.colorId⟩ := by
  unfold Avoid.ResolveCollisions
  exact ResolveCollisionsLoop_no_match deltaTime _ _ positions colors avoidThese h

/-- Witness for C5 (the first scenario of spec §8): the entity moved to
(10, 0) is 90.25 > 1.69 away from the single target at (0.5, 0), so position,
velocity and color pass through. -/
theorem ResolveCollisions_passthrough_witness :
    ¬ Avoid.DistanceSq (getP [⟨10, 0, 10, 0⟩, ⟨1/2, 0, 0, 0⟩] 0)
        (getP [⟨10, 0, 10, 0⟩, ⟨1/2, 0, 0, 0⟩] 1) < (169/100 : ℚ) ∧
    Avoid.ResolveCollisions ⟨0, 0⟩ 1 [⟨10, 0, 10, 0⟩, ⟨1/2, 0, 0, 0⟩]
        [⟨1, 1, 1⟩, ⟨1/2, 3/5, 7/10⟩] [⟨169/100, 1, 1⟩] =
      ⟨getP [⟨10, 0, 10, 0⟩, ⟨1/2, 0, 0, 0⟩] 0, getC [⟨1, 1, 1⟩, ⟨1/2, 3/5, 7/10⟩] 0⟩ := by
  refine ⟨by norm_num [Avoid.DistanceSq, getP], ?_⟩
  exact ResolveCollisions_passthrough ⟨0, 0⟩ 1 [⟨10, 0, 10, 0⟩, ⟨1/2, 0, 0, 0⟩]
    [⟨1, 1, 1⟩, ⟨1/2, 3/5, 7/10⟩] [⟨169/100, 1, 1⟩]
    (by intro t ht; simp at ht; subst ht; norm_num [Avoid.DistanceSq, getP])

/-- C3: `Position::UpdatePosition` behaves per axis as: with
`x' = x + velx * dt`, if `x' > xMax` the output x is `xMax` and velx is
negated; if `x' < xMin` the output x is `xMin` and velx is negated; otherwise
the output x is `x'` and velx is unchanged; independently and symmetrically
for the y axis (both axes may reflect in the same step, since each axis is
settled from its own integrated coordinate only). -/
theorem UpdatePosition_axis_reflection (p : Position) (deltaTime : ℚ) (bounds : WorldBounds)
    (hx : bounds.xMin ≤ bounds.xMax) (hy : bounds.yMin ≤ bounds.yMax) :
    ((p.x + p.velx * deltaTime > bounds.xMax →
        (p.UpdatePosition deltaTime bounds).x = bounds.xMax ∧
        (p.UpdatePosition deltaTime bounds).velx = -p.velx) ∧
      (p.x + p.velx * deltaTime < bounds.xMin →
        (p.UpdatePosition deltaTime bounds).x = bounds.xMin ∧
        (p.UpdatePosition deltaTime bounds).velx = -p.velx) ∧
      (bounds.xMin ≤ p.x + p.velx * deltaTime → p.x + p.velx * deltaTime ≤ bounds.xMax →
        (p.UpdatePosition deltaTime bounds).x = p.x + p.velx * deltaTime ∧
        (p.UpdatePosition deltaTime bounds).velx = p.velx)) ∧
    ((p.y + p.vely * deltaTime > bounds.yMax →
        (p.UpdatePosition deltaTime bounds).y = bounds.yMax ∧
        (p.UpdatePosition deltaTime bounds).vely = -p.vely) ∧
      (p.y + p.vely * deltaTime < bounds.yMin →
        (p.UpdatePosition deltaTime bounds).y = bounds.yMin ∧
        (p.UpdatePosition deltaTime bounds).vely = -p.vely) ∧
      (bounds.yMin ≤ p.y + p.vely * deltaTime → p.y + p.vely * deltaTime ≤ bounds.yMax →
        (p.UpdatePosition deltaTime bounds).y = p.y + p.vely * deltaTime ∧
        (p.UpdatePosition deltaTime bounds).vely = p.vely)) := by
  obtain ⟨h1, h2, h3⟩ :=
    reflect_axis (p.x + p.velx * deltaTime) bounds.xMin bounds.xMax p.velx hx
  obtain ⟨h4, h5, h6⟩ :=
    reflect_axis (p.y + p.vely * deltaTime) bounds.yMin bounds.yMax p.vely hy
  exact ⟨⟨h1, h2, h3⟩, ⟨h4, h5, h6⟩⟩

/-- Witness for C3: in the game's world bounds, a position at x = 79 moving
with velx = 2 over dt = 1 crosses xMax = 80: it is put back to 80 with
velx = -2, while the y axis (staying at 0) is untouched. -/
theorem UpdatePosition_axis_reflection_witness :
    ((-80 : ℚ) ≤ 80) ∧ ((-50 : ℚ) ≤ 50) ∧
    ((79 : ℚ) + 2 * 1 > 80) ∧
    ((⟨79, 0, 2, 0⟩ : Position).UpdatePosition 1 ⟨-80, 80, -50, 50⟩).x = 80 ∧
    ((⟨79, 0, 2, 0⟩ : Position).UpdatePosition 1 ⟨-80, 80, -50, 50⟩).velx = -2 ∧
    ((⟨79, 0, 2, 0⟩ : Position).UpdatePosition 1 ⟨-80, 80, -50, 50⟩).y = 0 ∧
    ((⟨79, 0, 2, 0⟩ : Position).UpdatePosition 1 ⟨-80, 80, -50, 50⟩).vely = 0 := by
  have h := UpdatePosition_axis_reflection ⟨79, 0, 2, 0⟩ 1 ⟨-80, 80, -50, 50⟩
    (by norm_num) (by norm_num)
  have hx := h.1.1 (by norm_num)
  have hyy := h.2.2.2 (by norm_num) (by norm_num)
  refine ⟨by norm_num, by norm_num, by norm_num, hx.1, ?_, ?_, ?_⟩
  · rw [hx.2]
  · rw [hyy.1]; norm_num
  · rw [hyy.2]

/-- C4: with ordered world bounds and a correctly sized output buffer, every
position produced by the Move pass (`Position::UpdatePositions`) lies inside
the world bounds on both axes. -/
theorem UpdatePositions_bounds_containment (deltaTime : ℚ) (bounds : WorldBounds)
    (inputs outputs : List Position) (hx : bounds.xMin ≤ bounds.xMax)
    (hy : bounds.yMin ≤ bounds.yMax) (hlen : outputs.length = inputs.length)
    (i : Nat) (hi : i < inputs.length) :
    bounds.xMin ≤ (getP (Position.UpdatePositions deltaTime bounds inputs outputs) i).x ∧
    (getP (Position.UpdatePositions deltaTime bounds inputs outputs) i).x ≤ bounds.xMax ∧
    bounds.yMin ≤ (getP (Position.UpdatePositions deltaTime bounds inputs outputs) i).y ∧
    (getP (Position.UpdatePositions deltaTime bounds inputs outputs) i).y ≤ bounds.yMax := by
  rw [getP_UpdatePositions deltaTime bounds inputs outputs hlen i hi]
  obtain ⟨a, b⟩ :=
    Clamp_mem ((getP inputs i).x + (getP inputs i).velx * deltaTime) bounds.xMin bounds.xMax hx
  obtain ⟨c, d⟩ :=
    Clamp_mem ((getP inputs i).y + (getP inputs i).vely * deltaTime) bounds.yMin bounds.yMax hy
  exact ⟨a, b, c, d⟩

/-- Witness for C4: a single position running far past the right world edge
within one frame is still inside the bounds after Move. -/
theorem UpdatePositions_bounds_containment_witness :
    ((-80 : ℚ) ≤ 80) ∧ ((-50 : ℚ) ≤ 50) ∧
    ([(⟨9, 9, 9, 9⟩ : Position)].length = [(⟨0, 0, 1000, 0⟩ : Position)].length) ∧
    (0 < [(⟨0, 0, 1000, 0⟩ : Position)].length) ∧
    ((-80 : ℚ) ≤
      (getP (Position.UpdatePositions 1 ⟨-80, 80, -50, 50⟩ [⟨0, 0, 1000, 0⟩] [⟨9, 9, 9, 9⟩]) 0).x ∧
    (getP (Position.UpdatePositions 1 ⟨-80, 80, -50, 50⟩ [⟨0, 0, 1000, 0⟩] [⟨9, 9, 9, 9⟩]) 0).x ≤ 80 ∧
    (-50 : ℚ) ≤
      (getP (Position.UpdatePositions 1 ⟨-80, 80, -50, 50⟩ [⟨0, 0, 1000, 0⟩] [⟨9, 9, 9, 9⟩]) 0).y ∧
    (getP (Position.UpdatePositions 1 ⟨-80, 80, -50, 50⟩ [⟨0, 0, 1000, 0⟩] [⟨9, 9, 9, 9⟩]) 0).y ≤ 50) := by
  refine ⟨by norm_num, by norm_num, by simp, by simp, ?_⟩
  exact UpdatePositions_bounds_containment 1 ⟨-80, 80, -50, 50⟩ [⟨0, 0, 1000, 0⟩] [⟨9, 9, 9, 9⟩]
    (by norm_num) (by norm_num) (by simp) 0 (by simp)

/-- C9: `Allocators::New` appends the component to the arena and returns a
handle equal to the arena's length before the insertion; after any further
append-only growth (`ext`), the handle is still strictly below the arena's
length and still resolves to the same component. -/
theorem New_appends_and_handle_stable {T : Type} (storage : List T) (v : T)
    (ext : List T) (d : T) :
    (Allocators.New storage v).1 = storage ++ [v] ∧
    (Allocators.New storage v).2 = storage.length ∧
    (Allocators.New storage v).2 < ((Allocators.New storage v).1 ++ ext).length ∧
    ((Allocators.New storage v).1 ++ ext).getD (Allocators.New storage v).2 d = v := by
  refine ⟨rfl, rfl, ?_, ?_⟩
  · show storage.length < ((storage ++ [v]) ++ ext).length
    simp only [List.length_append, List.length_singleton]
    omega
  · show ((storage ++ [v]) ++ ext).getD storage.length d = v
    rw [List.append_assoc, List.singleton_append,
      List.getD_append_right storage (v :: ext) d storage.length (le_refl _)]
    simp

/-- The static `Avoid::ResolveCollisions` loop is the pair of two independent
per-array folds: each write's value is computed from the pass inputs
(`in_pos`, `in_color`, `avoidThese`) only, never from the accumulated output
arrays. -/
theorem ResolveCollisionsStatic_split (deltaTime : ℚ) (out_pos : List Position)
    (out_color : List Color) (in_pos : List Position) (in_color : List Color)
    (avoid : List Avoid) (avoidThese : List AvoidThis) :
    Avoid.ResolveCollisionsStatic deltaTime out_pos out_color in_pos in_color avoid avoidThese =
      (avoid.foldl (fun arr c =>
          arr.set c.posId (c.ResolveCollisions deltaTime in_pos in_color avoidThese).pos) out_pos,
        avoid.foldl (fun arr c =>
          arr.set c.colorId
            (c.ResolveCollisions deltaTime in_pos in_color avoidThese).color) out_color) := by
  unfold Avoid.ResolveCollisionsStatic
  induction avoid generalizing out_pos out_color with
  | nil => rfl
  | cons c rest ih =>
    simp only [List.foldl_cons]
    exact ih _ _

/-- Folding index-distinct writes over a list is invariant under permutation
of the list. -/
theorem foldl_set_perm {α γ : Type} (key : γ → Nat) (val : γ → α) :
    ∀ {l1 l2 : List γ}, l1.Perm l2 →
      l1.Pairwise (fun a b => key a ≠ key b) →
      ∀ init : List α,
        l1.foldl (fun arr c => arr.set (key c) (val c)) init =
          l2.foldl (fun arr c => arr.set (key c) (val c)) init := by
  intro l1 l2 hp
  induction hp with
  | nil => intro _ init; rfl
  | cons x _ ih =>
    intro hpw init
    simp only [List.foldl_cons]
    exact ih (List.Pairwise.sublist (List.sublist_cons_self x _) hpw) _
  | swap x y rest =>
    intro hpw init
    simp only [List.foldl_cons]
    rw [List.set_comm _ _ _ (List.rel_of_pairwise_cons hpw (List.mem_cons_self x rest))]
  | trans h1 _ ih1 ih2 =>
    intro hpw init
    rw [ih1 hpw init,
      ih2 ((List.Perm.pairwise_iff (fun hab => fun e => hab e.symm) h1).mp hpw) init]

/-- C7: the sequential Resolve pass is order-independent: when the Avoid
components address pairwise-distinct Position slots and pairwise-distinct
Color slots (as the creation loops guarantee), running the static
`Avoid::ResolveCollisions` over any permutation of the Avoid list produces
the same pair of output arrays, because each entity's resolved values are
computed from the pass inputs only. -/
theorem ResolveCollisionsStatic_order_independent (deltaTime : ℚ)
    (out_pos : List Position) (out_color : List Color) (in_pos : List Position)
    (in_color : List Color) (avoid1 avoid2 : List Avoid) (avoidThese : List AvoidThis)
    (hperm : avoid1.Perm avoid2)
    (hpos : avoid1.Pairwise (fun a b => a.posId ≠ b.posId))
    (hcol : avoid1.Pairwise (fun a b => a.colorId ≠ b.colorId)) :
    Avoid.ResolveCollisionsStatic deltaTime out_pos out_color in_pos in_color avoid1 avoidThese =
      Avoid.ResolveCollisionsStatic deltaTime out_pos out_color in_pos in_color avoid2
        avoidThese := by
  rw [ResolveCollisionsStatic_split, ResolveCollisionsStatic_split]
  exact Prod.ext
    (foldl_set_perm (fun c : Avoid => c.posId)
      (fun c => (c.ResolveCollisions deltaTime in_pos in_color avoidThese).pos)
      hperm hpos out_pos)
    (foldl_set_perm (fun c : Avoid => c.colorId)
      (fun c => (c.ResolveCollisions deltaTime in_pos in_color avoidThese).color)
      hperm hcol out_color)

/-- Witness for C7: two Avoid entities on distinct slots, processed in both
orders, give the same output arrays. -/
theorem ResolveCollisionsStatic_order_independent_witness :
    ([(⟨0, 0⟩ : Avoid), ⟨1, 1⟩].Perm [⟨1, 1⟩, ⟨0, 0⟩]) ∧
    ([(⟨0, 0⟩ : Avoid), ⟨1, 1⟩].Pairwise (fun a b => a.posId ≠ b.posId)) ∧
    ([(⟨0, 0⟩ : Avoid), ⟨1, 1⟩].Pairwise (fun a b => a.colorId ≠ b.colorId)) ∧
    Avoid.ResolveCollisionsStatic 1 [⟨0, 0, 1, 0⟩, ⟨5, 5, 0, 0⟩] [⟨1, 1, 1⟩, ⟨1, 0, 0⟩]
        [⟨1, 0, 1, 0⟩, ⟨6, 5, 0, 0⟩] [⟨1, 1, 1⟩, ⟨1, 0, 0⟩] [⟨0, 0⟩, ⟨1, 1⟩] [⟨169/100, 1, 1⟩] =
      Avoid.ResolveCollisionsStatic 1 [⟨0, 0, 1, 0⟩, ⟨5, 5, 0, 0⟩] [⟨1, 1, 1⟩, ⟨1, 0, 0⟩]
        [⟨1, 0, 1, 0⟩, ⟨6, 5, 0, 0⟩] [⟨1, 1, 1⟩, ⟨1, 0, 0⟩] [⟨1, 1⟩, ⟨0, 0⟩] [⟨169/100, 1, 1⟩] := by
  refine ⟨List.Perm.swap _ _ _, by simp, by simp, ?_⟩
  exact ResolveCollisionsStatic_order_independent 1 [⟨0, 0, 1, 0⟩, ⟨5, 5, 0, 0⟩]
    [⟨1, 1, 1⟩, ⟨1, 0, 0⟩] [⟨1, 0, 1, 0⟩, ⟨6, 5, 0, 0⟩] [⟨1, 1, 1⟩, ⟨1, 0, 0⟩]
    [⟨0, 0⟩, ⟨1, 1⟩] [⟨1, 1⟩, ⟨0, 0⟩] [⟨169/100, 1, 1⟩]
    (List.Perm.swap _ _ _) (by simp) (by simp)

/-- C6: `update` on a game whose static store holds the constructor's
`kObjectCount + kAvoidCount` sprites returns exactly 1,000,020 render
records, one per Sprite in creation order; record `i` holds the i-th
sprite's final-generation position scaled by 0.05, the sprite scale scaled
by 0.05, the final-generation color channels copied unscaled, and the cast
sprite index. -/
theorem game_update_export_completeness (g : Game) (deltaTime : ℚ)
    (hcount : g.sComponents.sprite.length = kObjectCount + kAvoidCount) :
    (game_update g deltaTime).2.length = 1000020 ∧
    ∀ i, i < 1000020 →
      (game_update g deltaTime).2.getD i ⟨0, 0, 0, 0, 0, 0, 0⟩ =
        ⟨(getP (game_update g deltaTime).1.mComponents.pos
            (getS g.sComponents.sprite i).posId).x * (1/20),
          (getP (game_update g deltaTime).1.mComponents.pos
            (getS g.sComponents.sprite i).posId).y * (1/20),
          (getS g.sComponents.sprite i).scale * (1/20),
          (getC (game_update g deltaTime).1.mComponents.color
            (getS g.sComponents.sprite i).colorId).colorR,
          (getC (game_update g deltaTime).1.mComponents.color
            (getS g.sComponents.sprite i).colorId).colorG,
          (getC (game_update g deltaTime).1.mComponents.color
            (getS g.sComponents.sprite i).colorId).colorB,
          ((getS g.sComponents.sprite i).spriteIndex : ℚ)⟩ := by
  have h2 : (game_update g deltaTime).2 =
      ExportSpriteData g.sComponents.sprite (game_update g deltaTime).1.mComponents.pos
        (game_update g deltaTime).1.mComponents.color := rfl
  constructor
  · rw [h2]
    unfold ExportSpriteData
    rw [List.length_map, hcount]
    rfl
  · intro i hi
    have hi' : i < g.sComponents.sprite.length := by
      rw [hcount]
      exact lt_of_lt_of_le hi (by norm_num [kObjectCount, kAvoidCount])
    rw [h2]
    unfold ExportSpriteData
    rw [List.getD_eq_getElem _ _ (by simpa using hi'), List.getElem_map]
    unfold getS
    rw [List.getD_eq_getElem _ _ hi']

/-- Witness for C6: a game state carrying exactly 1,000,020 sprites yields
1,000,020 records, and record 0 is the transform of sprite 0. -/
theorem game_update_export_completeness_witness :
    (gMillion.sComponents.sprite.length = kObjectCount + kAvoidCount) ∧
    (game_update gMillion 1).2.length = 1000020 ∧
    (game_update gMillion 1).2.getD 0 ⟨0, 0, 0, 0, 0, 0, 0⟩ =
      ⟨(getP (game_update gMillion 1).1.mComponents.pos
          (getS gMillion.sComponents.sprite 0).posId).x * (1/20),
        (getP (game_update gMillion 1).1.mComponents.pos
          (getS gMillion.sComponents.sprite 0).posId).y * (1/20),
        (getS gMillion.sComponents.sprite 0).scale * (1/20),
        (getC (game_update gMillion 1).1.mComponents.color
          (getS gMillion.sComponents.sprite 0).colorId).colorR,
        (getC (game_update gMillion 1).1.mComponents.color
          (getS gMillion.sComponents.sprite 0).colorId).colorG,
        (getC (game_update gMillion 1).1.mComponents.color
          (getS gMillion.sComponents.sprite 0).colorId).colorB,
        ((getS gMillion.sComponents.sprite 0).spriteIndex : ℚ)⟩ := by
  have hcount : gMillion.sComponents.sprite.length = kObjectCount + kAvoidCount := by
    show (List.replicate 1000020 (⟨1, 0, 0, 0⟩ : Sprite)).length = kObjectCount + kAvoidCount
    rw [List.length_replicate]
    norm_num [kObjectCount, kAvoidCount]
  have h := game_update_export_completeness gMillion 1 hcount
  exact ⟨hcount, h.1, h.2 0 (by norm_num)⟩

/-- C8: `update` is a deterministic function of the component state and the
deltaTime sequence: two runs from equal initial states over equal deltaTime
sequences produce identical render-record sequences (the embedding of
`game_update` is a pure function; the only randomness of game.cpp sits in
initialisation, which is held fixed here). -/
theorem game_updateRun_deterministic (g1 g2 : Game) (dts1 dts2 : List ℚ)
    (hg : g1 = g2) (hdt : dts1 = dts2) :
    (game_updateRun g1 dts1).2 = (game_updateRun g2 dts2).2 := by
  rw [hg, hdt]

/-- Witness for C8: repeated one-frame runs from the same small game agree. -/
theorem game_updateRun_deterministic_witness :
    (gStale = gStale) ∧ ([(1 : ℚ)] = [(1 : ℚ)]) ∧
    (game_updateRun gStale [1]).2 = (game_updateRun gStale [1]).2 :=
  ⟨rfl, rfl, game_updateRun_deterministic gStale gStale [1] [1] rfl rfl⟩

/-- C1 (code-bug evidence): in the first frame of `gStale` (dt = 1) the
AvoidThis emitter's Move output has x = 31, yet the render record Export
emits for the emitter's sprite carries posX = 30 · 0.05 — the pre-Move
position. The static Resolve pass writes only Avoid entities' slots into the
arrays that become the Export generation, so the emitter's freshly moved
position is discarded and its exported position stays frozen at the initial
value, contradicting the wholesale per-frame replacement the spec states. -/
theorem game_update_export_stale_emitter :
    (getP (Position.UpdatePositions 1 gStale.bounds gStale.mComponents.pos
        gStale.mComponentsBuffer.pos) 1).x = 31 ∧
    ((game_update gStale 1).2.getD 1 ⟨0, 0, 0, 0, 0, 0, 0⟩).posX = 30 * (1/20) ∧
    ((30 : ℚ) * (1/20) ≠ 31 * (1/20)) := by
  refine ⟨?_, ?_, by norm_num⟩ <;>
    norm_num [gStale, Game.init, NewRegularObject, NewAvoidThis, Allocators.New,
      AvoidThis.ofDistance, game_update, Position.UpdatePositions, Position.UpdatePosition,
      Clamp, stdMin, stdMax, velScale, Avoid.ResolveCollisionsStatic, Avoid.ResolveCollisions,
      Avoid.ResolveCollisionsLoop, Avoid.DistanceSq, Avoid.ResolveCollision, ExportSpriteData,
      getP, getC, getS, List.range_succ]

/-- C10: the collision response performs no bounds clamping: in the first
frame of `gEscape` (dt = 1) the regular object's Move output (79, 0) is
inside the world bounds and within trigger range of the avoid target, the
Resolve pass advances it to x = 79 + 100 · 1 · 1.1 = 189 — outside
xMax = 80 — and Export publishes the out-of-bounds position scaled by 0.05,
so bounds containment holds only immediately after Move. -/
theorem ResolveCollision_escapes_bounds :
    (gEscape.bounds.xMin ≤ (getP gEscapeMoved 0).x ∧
      (getP gEscapeMoved 0).x ≤ gEscape.bounds.xMax ∧
      gEscape.bounds.yMin ≤ (getP gEscapeMoved 0).y ∧
      (getP gEscapeMoved 0).y ≤ gEscape.bounds.yMax) ∧
    Avoid.DistanceSq (getP gEscapeMoved 0) (getP gEscapeMoved 1) <
      (gEscape.sComponents.avoidThis.getD 0 ⟨0, 0, 0⟩).distanceSq ∧
    (getP (game_update gEscape 1).1.mComponents.pos 0).x = 189 ∧
    ¬ ((getP (game_update gEscape 1).1.mComponents.pos 0).x ≤ gEscape.bounds.xMax) ∧
    ((game_update gEscape 1).2.getD 0 ⟨0, 0, 0, 0, 0, 0, 0⟩).posX = 189 * (1/20) := by
  refine ⟨⟨?_, ?_, ?_, ?_⟩, ?_, ?_, ?_, ?_⟩ <;>
    norm_num [gEscape, gEscapeMoved, Game.init, NewRegularObject, NewAvoidThis, Allocators.New,
      AvoidThis.ofDistance, game_update, Position.UpdatePositions, Position.UpdatePosition,
      Clamp, stdMin, stdMax, velScale, Avoid.ResolveCollisionsStatic, Avoid.ResolveCollisions,
      Avoid.ResolveCollisionsLoop, Avoid.DistanceSq, Avoid.ResolveCollision, ExportSpriteData,
      getP, getC, getS, List.range_succ]
